import Mathlib

/-!
Shallow embedding of the forwarding-session supervision engine of
`src/portforward.js` (kubectlpf): the workload identity matcher
(`getPodId`), the log-line classifier (`processKubectlLog`), the
health-check tick (`getPods` error handling plus the per-pod
reconciliation body of `healthCheck`), the bounded reconnection
protocol (`tryReinitPod`), and the configuration merge
(`_.merge(systemDefinedPods, localDefinedPods)`).

JavaScript strings are modelled as Lean `String` / `List Char`; the
two regular expressions of `getPodId` and the literal-substring
classifications are modelled by explicit leftmost-scan matchers with
the same backtracking behaviour (documented at each definition).
-/

/-- Substring occurrence on character lists: `true` iff `pat` occurs
contiguously in `cs`. Models JavaScript `s.match(/lit/)` for a literal
pattern `lit`. -/
def containsList (cs pat : List Char) : Bool :=
  match cs with
  | [] => pat.isEmpty
  | _ :: tl => pat.isPrefixOf cs || containsList tl pat

/-- Substring test on strings (literal pattern, no metacharacters). -/
def containsSub (s pat : String) : Bool :=
  containsList s.data pat.data

/-- Character class `[-\da-z]` of the instance-suffix run in the
`getPodId` regexes: hyphen, decimal digit, or lowercase letter. -/
def suffixRunChar (c : Char) : Bool :=
  c = '-' || c.isDigit || ('a' ≤ c && c ≤ 'z')

/-- ASCII part of the JavaScript `\s` class (whitespace, including
newline), sufficient for `kubectl get pods` tables. -/
def isWsChar (c : Char) : Bool :=
  c = ' ' || c = '\t' || c = '\n' || c = '\r'

/-- Split a character list at every newline, as
`rawPods.split('\n')` does (keeps empty pieces). -/
def splitLines : List Char → List (List Char)
  | [] => [[]]
  | c :: cs =>
    let r := splitLines cs
    if c = '\n' then [] :: r
    else
      match r with
      | [] => [[c]]
      | l :: ls => (c :: l) :: ls

/-- Tail of the first regex of `getPodId`,
`(podName[-\da-z]*).*(Running)`, tried at a position where `podName`
has just been consumed; `rest` is the remaining text. Neither the
suffix run nor `.` matches a newline, and `Running` contains no
newline, so a match exists iff `Running` occurs in the current line
after the pod name. The capture group is `podName` plus the greedy
run of `[-\da-z]` characters (which can never contain the `R` of
`Running`, so greediness never has to backtrack). -/
def runningCapture (pn rest : List Char) : Option (List Char) :=
  if containsList (rest.takeWhile (fun c => c ≠ '\n')) "Running".data then
    some (pn ++ rest.takeWhile suffixRunChar)
  else none

/-- Leftmost-scan `exec` of `(podName[-\da-z]*).*(Running)` over a
character list: try every start position from the left, as the
JavaScript regex engine does, and return the first capture. -/
def scanRunning (pn : List Char) : List Char → Option (List Char)
  | [] => none
  | c :: cs =>
    match (if pn.isPrefixOf (c :: cs) then runningCapture pn ((c :: cs).drop pn.length) else none) with
    | some cap => some cap
    | none => scanRunning pn cs

/-- Tail of the second (error) regex of `getPodId`,
`[\s]*[\d]\/[\d][\s]*([a-zA-Z]*)[\s]`, after the suffix run: greedy
whitespace then a digit, a slash, a digit, greedy whitespace, the
captured status word, and one mandatory whitespace character. Each
greedy piece here is deterministic because its character class is
disjoint from what must follow it. Returns the captured status. -/
def errAfterRun (cs : List Char) : Option (List Char) :=
  match cs.dropWhile isWsChar with
  | [] => none
  | d1 :: rest1 =>
    if d1.isDigit then
      match rest1 with
      | '/' :: d2 :: rest2 =>
        if d2.isDigit then
          let rest3 := rest2.dropWhile isWsChar
          let phase := rest3.takeWhile (fun c => c.isAlpha)
          match rest3.drop phase.length with
          | w :: _ => if isWsChar w then some phase else none
          | [] => none
        else none
      | _ => none
    else none

/-- Backtracking over the greedy `[-\da-z]*` run of the error regex:
try the run length `k` first (longest), then shorter prefixes, as the
regex engine does. -/
def errTryRun (cs : List Char) : Nat → Option (List Char)
  | 0 => errAfterRun cs
  | k + 1 =>
    match errAfterRun (cs.drop (k + 1)) with
    | some phase => some phase
    | none => errTryRun cs k

/-- Error-regex match attempt at a position where `podName` has just
been consumed: greedy suffix run with backtracking, then the
deterministic tail. -/
def errCapture (cs : List Char) : Option (List Char) :=
  errTryRun cs (cs.takeWhile suffixRunChar).length

/-- Leftmost-scan `exec` of
`(podName[-\da-z]*)[\s]*[\d]\/[\d][\s]*([a-zA-Z]*)[\s]`, returning
the second capture group (the status word). -/
def scanErr (pn : List Char) : List Char → Option (List Char)
  | [] => none
  | c :: cs =>
    match (if pn.isPrefixOf (c :: cs) then errCapture ((c :: cs).drop pn.length) else none) with
    | some ph => some ph
    | none => scanErr pn cs

/-- Result of `getPodId`: the source either returns the matched id,
returns `false` (silent mode), or throws one of two error strings. -/
inductive PodIdResult where
  | found (id : String)
  | silentFail
  | phaseErr (phase : String)
  | unknownErr
deriving DecidableEq, Repr

/-- Message thrown by `getPodId` in the wrong-phase case (colour
codes omitted): it names the captured phase. -/
def phaseMessage (podName phase : String) : String :=
  "Pod " ++ podName ++ " is in " ++ phase ++ " state, needs to be Running"

/-- Model of `getPodId(rawPods, podName, silent)`: split into lines,
keep the lines starting with `podName`, re-join them with newlines,
and run the two regexes on the joined block in order. -/
def getPodId (rawPods podName : String) (silent : Bool) : PodIdResult :=
  let lines := splitLines rawPods.data
  let filterPods := lines.filter (fun l => podName.data.isPrefixOf l)
  let joined := List.intercalate ['\n'] filterPods
  match scanRunning podName.data joined with
  | some cap => .found (String.mk cap)
  | none =>
    match scanErr podName.data joined with
    | some phase =>
      if silent then .silentFail else .phaseErr (String.mk phase)
    | none =>
      if silent then .silentFail else .unknownErr

/-- Table with a header line and one `Running` instance of `myapp`. -/
def runningTable : String :=
  "NAME READY STATUS RESTARTS AGE\nmyapp-7f8c9 1/1 Running 0 3m"

/-- Table whose only `myapp` line is in `Pending` phase. -/
def pendingTable : String :=
  "NAME READY STATUS RESTARTS AGE\nmyapp-7f8c9 0/1 Pending 0 10s"

/-- Table whose only `Running` line belongs to `webapp-1a2b`. -/
def webTable : String :=
  "NAME READY STATUS RESTARTS AGE\nwebapp-1a2b 1/1 Running 0 3m"

/-- Table in which no line starts with `myapp` at all. -/
def notFoundTable : String :=
  "NAME READY STATUS RESTARTS AGE\nother-1 1/1 Running 0 3m"

/-- Per-session mutable state relevant to `getPods` and
`healthCheck`: the resolved instance id, the `initialized` and
`restartingState` flags, and a counter of `childProcess.kill()`
calls (tracking the kill side effect). -/
structure Pod where
  name : String
  id : String
  initialized : Bool
  restartingState : Bool
  killCount : Nat
deriving DecidableEq, Repr

/-- The network-error branch of `getPods` (before invoking
`callback(true)`): every initialized pod has its process killed and
its `initialized` flag cleared; other pods are untouched. -/
def getPodsNetworkErrorKill (pods : List Pod) : List Pod :=
  pods.map fun pod =>
    if pod.initialized then
      { pod with initialized := false, killCount := pod.killCount + 1 }
    else pod

/-- Existence test of the `healthCheck` regex
`(pod.id).*(Running)` over the whole raw table: some position starts
with the id and is followed, on the same line, by `Running`. -/
def scanIdRunning (pn : List Char) : List Char → Bool
  | [] => false
  | c :: cs =>
    (pn.isPrefixOf (c :: cs) &&
      containsList (((c :: cs).drop pn.length).takeWhile (fun x => x ≠ '\n')) "Running".data)
    || scanIdRunning pn cs

/-- Result of running the per-pod body of `healthCheck` on one pod:
the updated pod and whether the reconnection protocol was started
for it during this tick. -/
structure TickPodResult where
  pod : Pod
  protocolStarted : Bool
deriving DecidableEq, Repr

/-- Per-pod body of `healthCheck` in the success branch of
`getPods`: a pod already `restartingState` is skipped; otherwise, if
its id no longer appears as `Running` in the fresh table or it is
not initialized, its process is killed, it enters `restartingState`,
and the reconnection protocol starts. -/
def healthCheckPod (rawPods : String) (pod : Pod) : TickPodResult :=
  if !pod.restartingState then
    if !(scanIdRunning pod.id.data rawPods.data) || !pod.initialized then
      { pod := { pod with
                   restartingState := true
                   initialized := false
                   killCount := pod.killCount + 1 }
        protocolStarted := true }
    else { pod := pod, protocolStarted := false }
  else { pod := pod, protocolStarted := false }

/-- Outcome of one `getPods` invocation: the classified network
error, or success with the raw table. (The remaining source branch,
`throw stderr` on an unrecognised failure, aborts the run and is not
reached by the claims below.) -/
inductive GetPodsOutcome where
  | netError
  | success (rawPods : String)
deriving DecidableEq, Repr

/-- Aggregate result of one `healthCheck` tick over the whole
running-pod list plus the global `restartAttempt` counter. -/
structure TickResult where
  pods : List Pod
  restartAttempt : Nat
  protocolsStarted : Nat
deriving DecidableEq, Repr

/-- One `healthCheck` tick: `getPods` runs first. On a network error
its error branch runs (killing initialized pods, bumping the global
`restartAttempt`) and the callback returns at once — no per-pod
reconciliation happens. On success `restartAttempt` resets and every
pod goes through `healthCheckPod`. -/
def healthCheckTick (outcome : GetPodsOutcome) (pods : List Pod) (restartAttempt : Nat) :
    TickResult :=
  match outcome with
  | .netError =>
    { pods := getPodsNetworkErrorKill pods
      restartAttempt := restartAttempt + 1
      protocolsStarted := 0 }
  | .success raw =>
    let results := pods.map (healthCheckPod raw)
    { pods := results.map TickPodResult.pod
      restartAttempt := 0
      protocolsStarted := (results.filter TickPodResult.protocolStarted).length }

/-- Ceiling on reconnection attempts (`maxAttempt` in the source). -/
def maxAttempt : Nat := 20

/-- Delay between reconnection attempts, in milliseconds
(`attemptDuration` in the source). -/
def attemptDuration : Nat := 5000

/-- Outcome of one `getPods` call inside the reconnection protocol. -/
inductive AttemptOutcome where
  | netErr
  | table (rawPods : String)
deriving DecidableEq, Repr

/-- How a run of the reconnection protocol ends, with the attempt
counter and the elapsed time (in milliseconds since the protocol
started) observable:
`respawned id counter elapsed` — a silent `getPodId` found `id`, the
pod id was updated and `portForwardPod` re-spawned the tunnel;
`exited calls elapsed code` — the counter hit the ceiling during the
`calls`-th silent match attempt and `process.exit()` ran (Node exits
with code 0 when no argument is given);
`stopped counter elapsed` — a network error made the callback return
without scheduling anything, halting the chain;
`pendingTimer counter elapsed` — the supplied outcome list was
exhausted while a retry timer was still scheduled. -/
inductive ProtocolOutcome where
  | respawned (newId : String) (counter : Nat) (elapsed : Nat)
  | exited (calls : Nat) (elapsed : Nat) (exitCode : Nat)
  | stopped (counter : Nat) (elapsed : Nat)
  | pendingTimer (counter : Nat) (elapsed : Nat)
deriving DecidableEq, Repr

/-- The `tryReinitPod` chain of `healthCheck`, driven by the list of
successive `getPods` outcomes: on a network error the callback
returns (nothing further is scheduled); on a table, a silent
`getPodId` either finds the pod (update id, re-spawn) or, if the
counter has reached `maxAttempt`, exits the whole process, and
otherwise increments the counter and schedules the next attempt
`attemptDuration` later. -/
def tryReinitPod (podName : String) : Nat → Nat → List AttemptOutcome → ProtocolOutcome
  | attempt, elapsed, [] => .pendingTimer attempt elapsed
  | attempt, elapsed, .netErr :: _ => .stopped attempt elapsed
  | attempt, elapsed, .table raw :: rest =>
    match getPodId raw podName true with
    | .found id => .respawned id attempt elapsed
    | _ =>
      if maxAttempt ≤ attempt then .exited (attempt + 1) elapsed 0
      else tryReinitPod podName (attempt + 1) (elapsed + attemptDuration) rest

/-- A tick that detects a dead pod starts the protocol with
`let attempt = 0` — every restart cycle begins at counter zero. -/
def startReconnection (podName : String) (outcomes : List AttemptOutcome) : ProtocolOutcome :=
  tryReinitPod podName 0 0 outcomes

/-- Session state seen by `processKubectlLog`. -/
structure LogPod where
  name : String
  initialized : Bool
  excluded : Bool
deriving DecidableEq, Repr

/-- Effects of processing one log line: the updated session, whether
`child.kill()` ran, whether the session was pulled out of
`runningPods`, the `process.exit` code if the run ended, and whether
an extra `healthCheck()` was triggered. -/
structure LogResult where
  pod : LogPod
  killedChild : Bool
  removedFromSet : Bool
  exitCode : Option Nat
  healthCheckTriggered : Bool
deriving DecidableEq, Repr

/-- A log line that changes nothing and has no effect. -/
def noEffect (pod : LogPod) : LogResult :=
  { pod := pod, killedChild := false, removedFromSet := false,
    exitCode := none, healthCheckTriggered := false }

/-- Model of `processKubectlLog(logLine, pod, child)`. The if-else
chain of the source is kept in order. `othersLeft` is true iff
`runningPods` is still non-empty after this session is pulled from
it. `process.exit(0)` and the argument-less `process.exit()` both
terminate with code 0. -/
def processKubectlLog (logLine : String) (pod : LogPod) (othersLeft : Bool) : LogResult :=
  if containsSub logLine "Forwarding from" then
    if !pod.initialized then
      { noEffect pod with pod := { pod with initialized := true } }
    else noEffect pod
  else if containsSub logLine "Handling connection" then
    noEffect pod
  else if containsSub logLine "an error occurred forwarding" then
    { noEffect pod with healthCheckTriggered := true }
  else if containsSub logLine "address already in use"
      || containsSub logLine "Unable to listen on any of the requested ports" then
    if !pod.excluded then
      { pod := { pod with excluded := true }
        killedChild := true
        removedFromSet := true
        exitCode := if othersLeft then none else some 0
        healthCheckTriggered := false }
    else noEffect pod
  else if containsSub logLine "bind: permission denied" then
    { noEffect pod with exitCode := some 0 }
  else if !pod.initialized then
    { noEffect pod with exitCode := some 0 }
  else noEffect pod

/-- Status of one `tryReinitPod` chain for the interleaving model:
its `getPods` callback is outstanding, or its retry timer is set. -/
inductive ChainStatus where
  | inFlight
  | waitingTimer
deriving DecidableEq, Repr

/-- State of one session across interleaved event-loop callbacks:
the two flags plus every reconnection chain started for it and not
yet resolved. -/
structure SessionView where
  restartingState : Bool
  initialized : Bool
  chains : List ChainStatus
deriving DecidableEq, Repr

/-- Event-loop callbacks that touch the flags: a `healthCheck` tick
whose fresh table does not list the session id as `Running`, and the
`close` handler installed by `portForwardPod` firing after the
process dies. -/
inductive LoopEvent where
  | tick
  | procClose
deriving DecidableEq, Repr

/-- One event-loop callback. A tick skips the session iff
`restartingState` is set; otherwise it sets the flag, clears
`initialized`, kills the process, cancels the pending retry timer
(`clearTimeout(pod.initInterval)` — at most one timer is pending)
and issues the first query of a fresh chain. The `close` handler
(source lines 143-147) clears both flags unconditionally. -/
def loopStep (s : SessionView) : LoopEvent → SessionView
  | .tick =>
    if !s.restartingState then
      { restartingState := true
        initialized := false
        chains := (s.chains.filter (fun c => c ≠ .waitingTimer)) ++ [.inFlight] }
    else s
  | .procClose => { s with restartingState := false, initialized := false }

/-- Fold a list of event-loop callbacks over a session view. -/
def loopRun (s : SessionView) (evs : List LoopEvent) : SessionView :=
  evs.foldl loopStep s

/-- A session that is forwarding normally: no protocol running. -/
def activeSession : SessionView :=
  { restartingState := false, initialized := true, chains := [] }

/-- Configuration values of `pods.json`: a bare port, or a record
with optional `from`, `to` and `namespace` fields. -/
inductive PodVal where
  | port (n : Nat)
  | record (fromPort toPort : Option Nat) (ns : Option String)
deriving DecidableEq, Repr

/-- Field-level rule of `_.merge`: the source (project-local) field
wins when present, otherwise the destination (user-global) field is
kept. -/
def mergeField {α : Type} (sys loc : Option α) : Option α :=
  match loc with
  | some x => some x
  | none => sys

/-- Value-level rule of `_.merge`: two records are merged
recursively field by field; in every other combination the
project-local value replaces the user-global one. -/
def mergeVal : PodVal → PodVal → PodVal
  | .record f1 t1 n1, .record f2 t2 n2 =>
    .record (mergeField f1 f2) (mergeField t1 t2) (mergeField n1 n2)
  | _, l => l

/-- Lookup in the result of
`_.merge(systemDefinedPods, localDefinedPods)` at key `k` (the two
JSON objects are association lists with distinct keys): a key
present in both maps to the `mergeVal` of the two entries, a key
present in one map keeps its entry. -/
def mergedLookup (systemDefinedPods localDefinedPods : List (String × PodVal))
    (k : String) : Option PodVal :=
  match List.lookup k localDefinedPods, List.lookup k systemDefinedPods with
  | some l, some s => some (mergeVal s l)
  | some l, none => some l
  | none, s => s

/-- A session forwarding normally, as `healthCheck` sees it. -/
def examplePod : Pod :=
  { name := "myapp", id := "myapp-7f8c9", initialized := true,
    restartingState := false, killCount := 0 }

/-- A session whose tunnel process has just been spawned. -/
def freshLogPod : LogPod :=
  { name := "web", initialized := false, excluded := false }

/-- Typical fatal bind-permission log line from the tunnel process. -/
def permissionLine : String :=
  "listen tcp4 127.0.0.1:80: bind: permission denied"

/-- Typical forwarding-established log line. -/
def establishedLine : String :=
  "Forwarding from 127.0.0.1:8080 -> 8080"

/-- Typical port-already-bound log line. -/
def portInUseLine : String :=
  "Unable to listen on any of the requested ports: [8080]"

theorem getPodsNetworkErrorKill_fields (pods : List Pod) :
    (getPodsNetworkErrorKill pods).map Pod.restartingState = pods.map Pod.restartingState ∧
    (getPodsNetworkErrorKill pods).map Pod.id = pods.map Pod.id ∧
    (getPodsNetworkErrorKill pods).map Pod.name = pods.map Pod.name ∧
    (getPodsNetworkErrorKill pods).map Pod.killCount =
      pods.map (fun p => if p.initialized then p.killCount + 1 else p.killCount) ∧
    (getPodsNetworkErrorKill pods).map Pod.initialized = pods.map (fun _ => false) := by
  induction pods with
  | nil => simp [getPodsNetworkErrorKill]
  | cons p ps ih =>
    obtain ⟨ih1, ih2, ih3, ih4, ih5⟩ := ih
    by_cases hp : p.initialized <;>
      simp [getPodsNetworkErrorKill, hp] at ih1 ih2 ih3 ih4 ih5 ⊢ <;>
      exact ⟨ih1, ih2, ih3, ih4, ih5⟩

/-- Every table outcome in the list makes the silent `getPodId`
fail for `podName`. -/
def allSilentFail (podName : String) (outcomes : List AttemptOutcome) : Prop :=
  ∀ o ∈ outcomes, ∃ raw, o = .table raw ∧ getPodId raw podName true = .silentFail

theorem tryReinit_allFail (podName : String) (outcomes : List AttemptOutcome)
    (hfail : allSilentFail podName outcomes) :
    ∀ attempt elapsed : Nat,
      attempt + outcomes.length = maxAttempt + 1 → attempt ≤ maxAttempt →
      tryReinitPod podName attempt elapsed outcomes =
        .exited (maxAttempt + 1) (elapsed + (maxAttempt - attempt) * attemptDuration) 0 := by
  induction outcomes with
  | nil =>
    intro attempt elapsed hlen hle
    simp only [List.length_nil, Nat.add_zero] at hlen
    omega
  | cons o os ih =>
    intro attempt elapsed hlen hle
    obtain ⟨raw, rfl, hraw⟩ := hfail o (List.mem_cons_self o os)
    have hfail2 : allSilentFail podName os := fun x hx => hfail x (List.mem_cons_of_mem _ hx)
    by_cases hceil : maxAttempt ≤ attempt
    · have ha : attempt = maxAttempt := Nat.le_antisymm hle hceil
      subst ha
      simp [tryReinitPod, hraw, hceil]
    · have hlt : attempt < maxAttempt := Nat.lt_of_not_le hceil
      have step := ih hfail2 (attempt + 1) (elapsed + attemptDuration)
        (by simp only [List.length_cons] at hlen; omega) (by omega)
      simp only [tryReinitPod, hraw, if_neg hceil, step]
      have harith : elapsed + attemptDuration + (maxAttempt - (attempt + 1)) * attemptDuration =
          elapsed + (maxAttempt - attempt) * attemptDuration := by
        have hsub : maxAttempt - attempt = (maxAttempt - (attempt + 1)) + 1 := by omega
        rw [hsub]
        ring
      rw [harith]

theorem tryReinit_found (podName : String) (pre : List AttemptOutcome)
    (hfail : allSilentFail podName pre) (good : String) (id : String)
    (hid : getPodId good podName true = .found id) :
    ∀ (rest : List AttemptOutcome) (attempt elapsed : Nat),
      attempt + pre.length ≤ maxAttempt →
      tryReinitPod podName attempt elapsed (pre ++ .table good :: rest) =
        .respawned id (attempt + pre.length) (elapsed + pre.length * attemptDuration) := by
  induction pre with
  | nil =>
    intro rest attempt elapsed _
    simp [tryReinitPod, hid]
  | cons o os ih =>
    intro rest attempt elapsed hle
    obtain ⟨raw, rfl, hraw⟩ := hfail o (List.mem_cons_self o os)
    have hfail2 : allSilentFail podName os := fun x hx => hfail x (List.mem_cons_of_mem _ hx)
    have hceil : ¬ maxAttempt ≤ attempt := by
      simp only [List.length_cons] at hle
      omega
    have step := ih hfail2 rest (attempt + 1) (elapsed + attemptDuration)
      (by simp only [List.length_cons] at hle; omega)
    calc tryReinitPod podName attempt elapsed
          ((AttemptOutcome.table raw :: os) ++ AttemptOutcome.table good :: rest)
        = tryReinitPod podName (attempt + 1) (elapsed + attemptDuration)
            (os ++ AttemptOutcome.table good :: rest) := by
          simp [tryReinitPod, hraw, hceil]
      _ = ProtocolOutcome.respawned id (attempt + 1 + os.length)
            (elapsed + attemptDuration + os.length * attemptDuration) := step
      _ = ProtocolOutcome.respawned id (attempt + (AttemptOutcome.table raw :: os).length)
            (elapsed + (AttemptOutcome.table raw :: os).length * attemptDuration) := by
          have h1 : attempt + 1 + os.length = attempt + (os.length + 1) := by omega
          have h2 : elapsed + attemptDuration + os.length * attemptDuration =
              elapsed + (os.length + 1) * attemptDuration := by ring
          rw [List.length_cons, h1, h2]

theorem tryReinit_exitCode_zero (podName : String) (outcomes : List AttemptOutcome) :
    ∀ (attempt elapsed calls el code : Nat),
      tryReinitPod podName attempt elapsed outcomes = .exited calls el code → code = 0 := by
  induction outcomes with
  | nil =>
    intro attempt elapsed calls el code h
    simp [tryReinitPod] at h
  | cons o os ih =>
    intro attempt elapsed calls el code h
    match o with
    | .netErr => simp [tryReinitPod] at h
    | .table raw =>
      cases hg : getPodId raw podName true
      case found id => simp [tryReinitPod, hg] at h
      all_goals
        simp only [tryReinitPod, hg] at h
        by_cases hceil : maxAttempt ≤ attempt
        · rw [if_pos hceil] at h
          injection h with h1 h2 h3
          exact h3.symm
        · rw [if_neg hceil] at h
          exact ih (attempt + 1) (elapsed + attemptDuration) calls el code h

/-- Claim C1 counterexample: on a health-check tick in which
`getPods` reports a network error, an initialized session is not
left untouched — inside the `getPods` error branch its process is
killed (`killCount` rises) and its `initialized` flag is cleared
before the `healthCheck` callback aborts the tick. -/
theorem c1_counterexample :
    (healthCheckTick .netError [examplePod] 0).pods =
      [{ examplePod with initialized := false, killCount := 1 }] ∧
    (healthCheckTick .netError [examplePod] 0).pods ≠ [examplePod] := by decide

/-- Claim C1 (amended): a network-error tick starts no reconnection
protocol and leaves every session's `restartingState`, `instanceId`
and name untouched, but `getPods` itself, before aborting the tick,
kills the process of every initialized session and clears its
`initialized` flag, and the global `restartAttempt` counter rises by
one. -/
theorem c1_network_error_tick (pods : List Pod) (ra : Nat) :
    (healthCheckTick .netError pods ra).protocolsStarted = 0 ∧
    (healthCheckTick .netError pods ra).restartAttempt = ra + 1 ∧
    (healthCheckTick .netError pods ra).pods.map Pod.restartingState =
      pods.map Pod.restartingState ∧
    (healthCheckTick .netError pods ra).pods.map Pod.id = pods.map Pod.id ∧
    (healthCheckTick .netError pods ra).pods.map Pod.name = pods.map Pod.name ∧
    (healthCheckTick .netError pods ra).pods.map Pod.killCount =
      pods.map (fun p => if p.initialized then p.killCount + 1 else p.killCount) ∧
    (healthCheckTick .netError pods ra).pods.map Pod.initialized =
      pods.map (fun _ => false) := by
  obtain ⟨h1, h2, h3, h4, h5⟩ := getPodsNetworkErrorKill_fields pods
  exact ⟨rfl, rfl, h1, h2, h3, h4, h5⟩

/-- Claim C2 counterexample: a bind-permission log line terminates
the run through `process.exit(0)` — exit code 0 — and exhausting the
retry ceiling terminates it through the argument-less
`process.exit()`, which also exits with code 0. Neither termination
has a non-zero exit code. -/
theorem c2_counterexample :
    (processKubectlLog permissionLine freshLogPod true).exitCode = some 0 ∧
    startReconnection "myapp" (List.replicate 21 (.table notFoundTable)) =
      .exited 21 100000 0 := by decide

/-- Claim C2 (amended): every run that terminates because of a
bind-permission error, and every run that terminates by exhausting
the reconnection retry ceiling, exits with code 0, not a non-zero
code. -/
theorem c2_fatal_exit_codes :
    (∀ (logLine : String) (pod : LogPod) (othersLeft : Bool),
      containsSub logLine "Forwarding from" = false →
      containsSub logLine "Handling connection" = false →
      containsSub logLine "an error occurred forwarding" = false →
      containsSub logLine "address already in use" = false →
      containsSub logLine "Unable to listen on any of the requested ports" = false →
      containsSub logLine "bind: permission denied" = true →
      (processKubectlLog logLine pod othersLeft).exitCode = some 0) ∧
    (∀ (podName : String) (outcomes : List AttemptOutcome)
        (attempt elapsed calls el code : Nat),
      tryReinitPod podName attempt elapsed outcomes = .exited calls el code →
      code = 0) := by
  constructor
  · intro logLine pod othersLeft h1 h2 h3 h4 h5 h6
    simp [processKubectlLog, h1, h2, h3, h4, h5, h6, noEffect]
  · intro podName outcomes attempt elapsed calls el code h
    exact tryReinit_exitCode_zero podName outcomes attempt elapsed calls el code h

/-- Claim C2 witness: the amended theorem applied to the concrete
permission-denied line and to a concrete exhausted protocol run. -/
theorem c2_fatal_exit_codes_witness :
    (processKubectlLog permissionLine freshLogPod false).exitCode = some 0 ∧
    (0 : Nat) = 0 :=
  ⟨c2_fatal_exit_codes.1 permissionLine freshLogPod false (by decide) (by decide)
      (by decide) (by decide) (by decide) (by decide),
    c2_fatal_exit_codes.2 "myapp" (List.replicate 21 (.table notFoundTable)) 0 0 21 100000 0
      (by decide)⟩

/-- Claim C3 counterexample: with a workload that never reappears,
after exactly 20 failed silent `getPodId` attempts the protocol has
not terminated — it is still waiting on a scheduled retry; the fatal
exit happens only during the 21st failed attempt, with the counter
at the ceiling of 20, 100000 ms after the protocol started. -/
theorem c3_counterexample :
    startReconnection "myapp" (List.replicate 20 (.table notFoundTable)) =
      .pendingTimer 20 100000 ∧
    startReconnection "myapp" (List.replicate 21 (.table notFoundTable)) =
      .exited 21 100000 0 := by decide

/-- Claim C3 (amended): for a workload that never reappears the
protocol makes 21 failed silent match attempts in total — the
immediate one plus 20 retries spaced `attemptDuration` apart — and
the 21st, finding the counter at the ceiling of 20, terminates the
whole run; for a workload that reappears on an attempt at or below
the ceiling, `instanceId` is updated to the found id and forwarding
is re-spawned; every protocol start (`startReconnection`) begins
with the counter at zero, so the next restart cycle counts from zero
again. -/
theorem c3_reconnection_protocol :
    (∀ (podName : String) (outcomes : List AttemptOutcome),
      allSilentFail podName outcomes → outcomes.length = maxAttempt + 1 →
      startReconnection podName outcomes =
        .exited (maxAttempt + 1) (maxAttempt * attemptDuration) 0) ∧
    (∀ (podName : String) (pre : List AttemptOutcome) (good id : String)
        (rest : List AttemptOutcome),
      allSilentFail podName pre → pre.length ≤ maxAttempt →
      getPodId good podName true = .found id →
      startReconnection podName (pre ++ .table good :: rest) =
        .respawned id pre.length (pre.length * attemptDuration)) := by
  constructor
  · intro podName outcomes hfail hlen
    have h := tryReinit_allFail podName outcomes hfail 0 0 (by omega) (by omega)
    simpa [startReconnection] using h
  · intro podName pre good id rest hfail hlen hid
    have h := tryReinit_found podName pre hfail good id hid rest 0 0 (by omega)
    simpa [startReconnection] using h

/-- Claim C3 witness: the amended theorem applied to a 21-times
absent workload and to a workload that reappears on attempt 3. -/
theorem c3_reconnection_protocol_witness :
    startReconnection "myapp" (List.replicate 21 (.table notFoundTable)) =
      .exited 21 100000 0 ∧
    startReconnection "myapp"
        (List.replicate 3 (.table notFoundTable) ++ .table runningTable :: []) =
      .respawned "myapp-7f8c9" 3 15000 :=
  ⟨c3_reconnection_protocol.1 "myapp" (List.replicate 21 (.table notFoundTable))
      (fun o ho => ⟨notFoundTable, List.eq_of_mem_replicate ho, by decide⟩) (by decide),
    c3_reconnection_protocol.2 "myapp" (List.replicate 3 (.table notFoundTable))
      runningTable "myapp-7f8c9" []
      (fun o ho => ⟨notFoundTable, List.eq_of_mem_replicate ho, by decide⟩)
      (by decide) (by decide)⟩

/-- Claim C4 counterexample: a reconnection attempt that hits a
network error halts the retry chain: even though the very next
outcome would have found the workload, the protocol never consumes
it — nothing is rescheduled after the callback returns. -/
theorem c4_counterexample :
    startReconnection "myapp" [.netErr, .table runningTable] = .stopped 0 0 ∧
    startReconnection "myapp" [.netErr, .table runningTable] ≠
      .respawned "myapp-7f8c9" 0 attemptDuration := by decide

/-- Claim C4 (amended): a network error during a reconnection
attempt is swallowed (the run does not terminate) and the attempt
counter is not incremented, but no next attempt is scheduled: the
chain stops with the counter and clock as they were, whatever later
outcomes would have held. -/
theorem c4_network_error_stops_chain (podName : String) (attempt elapsed : Nat)
    (rest : List AttemptOutcome) :
    tryReinitPod podName attempt elapsed (.netErr :: rest) = .stopped attempt elapsed := rfl

/-- Claim C5 counterexample: after a tick starts the reconnection
protocol, the `close` handler of the killed process clears
`restartingState`; the next tick therefore does not skip the session
and starts a second chain while the first is still in flight — two
reconnection protocols running concurrently for the same session. -/
theorem c5_counterexample :
    (loopRun activeSession [.tick]).restartingState = true ∧
    (loopRun activeSession [.tick, .procClose]).restartingState = false ∧
    (loopRun activeSession [.tick, .procClose, .tick]).chains =
      [.inFlight, .inFlight] := by decide

/-- Claim C5 (amended): a health-check tick skips a session exactly
while its `restartingState` flag is set; the flag, however, is
cleared by the `close` handler as soon as the killed process exits,
not when the reconnection protocol resolves, so the guard only holds
until the `close` event fires. -/
theorem c5_tick_skips_restarting (s : SessionView) (h : s.restartingState = true) :
    loopStep s .tick = s := by
  simp [loopStep, h]

/-- Claim C5 witness: the amended theorem at a concrete restarting
session. -/
theorem c5_tick_skips_restarting_witness :
    loopStep { restartingState := true, initialized := false, chains := [.inFlight] } .tick =
      { restartingState := true, initialized := false, chains := [.inFlight] } :=
  c5_tick_skips_restarting _ rfl

/-- Claim C6 counterexample: with record values `_.merge` is deep —
a user-global field absent from the project-local record survives
into the merged entry, so the merged entry for a shared key is not
the project-local entry in its entirety. -/
theorem c6_counterexample :
    mergedLookup [("web", .record (some 8080) none (some "prod"))]
        [("web", .record (some 9090) none none)] "web" =
      some (.record (some 9090) none (some "prod")) ∧
    mergedLookup [("web", .record (some 8080) none (some "prod"))]
        [("web", .record (some 9090) none none)] "web" ≠
      some (.record (some 9090) none none) := by decide

/-- Claim C6 (amended): for a key present in both sources the merge
is value-directed: a project-local bare port replaces the
user-global entry entirely; any project-local value replaces a
user-global bare port entirely; and two records are merged field by
field — each field present in the project-local record wins, each
absent field is inherited from the user-global record. -/
theorem c6_merge_by_key :
    (∀ (sys loc : List (String × PodVal)) (k : String) (v : PodVal) (n : Nat),
      List.lookup k sys = some v → List.lookup k loc = some (.port n) →
      mergedLookup sys loc k = some (.port n)) ∧
    (∀ (sys loc : List (String × PodVal)) (k : String) (m : Nat) (v : PodVal),
      List.lookup k sys = some (.port m) → List.lookup k loc = some v →
      mergedLookup sys loc k = some v) ∧
    (∀ (sys loc : List (String × PodVal)) (k : String)
        (f1 t1 f2 t2 : Option Nat) (n1 n2 : Option String),
      List.lookup k sys = some (.record f1 t1 n1) →
      List.lookup k loc = some (.record f2 t2 n2) →
      mergedLookup sys loc k =
        some (.record (mergeField f1 f2) (mergeField t1 t2) (mergeField n1 n2))) := by
  refine ⟨?_, ?_, ?_⟩
  · intro sys loc k v n hs hl
    cases v <;> simp [mergedLookup, hs, hl, mergeVal]
  · intro sys loc k m v hs hl
    cases v <;> simp [mergedLookup, hs, hl, mergeVal]
  · intro sys loc k f1 t1 f2 t2 n1 n2 hs hl
    simp [mergedLookup, hs, hl, mergeVal]

/-- Claim C6 witness: the amended theorem at concrete
configurations covering all three value combinations. -/
theorem c6_merge_by_key_witness :
    mergedLookup [("web", .record (some 8080) none (some "prod"))]
        [("web", .port 9090)] "web" = some (.port 9090) ∧
    mergedLookup [("db", .port 5432)]
        [("db", .record (some 5432) (some 5433) none)] "db" =
      some (.record (some 5432) (some 5433) none) ∧
    mergedLookup [("api", .record (some 1) none (some "prod"))]
        [("api", .record (some 2) none none)] "api" =
      some (.record (mergeField (some 1) (some 2)) (mergeField none none)
        (mergeField (some "prod") none)) :=
  ⟨c6_merge_by_key.1 _ _ "web" (.record (some 8080) none (some "prod")) 9090
      (by decide) (by decide),
    c6_merge_by_key.2.1 _ _ "db" 5432 (.record (some 5432) (some 5433) none)
      (by decide) (by decide),
    c6_merge_by_key.2.2 _ _ "api" (some 1) none (some 2) none (some "prod") none
      (by decide) (by decide)⟩

/-- Claim C7: a log line classified as port-already-in-use (reached
in the classifier chain after the established, connection-handled
and forwarding-error patterns) kills the session process, marks the
session excluded, removes it from the active set and triggers no
health check; the run exits with the clean code 0 exactly when the
removal empties the set; and re-processing such a line on the
now-excluded session is a complete no-op, so no restart or
reconnection is ever triggered for it. -/
theorem c7_port_in_use (logLine : String) (pod : LogPod) (othersLeft : Bool)
    (h1 : containsSub logLine "Forwarding from" = false)
    (h2 : containsSub logLine "Handling connection" = false)
    (h3 : containsSub logLine "an error occurred forwarding" = false)
    (hclass : (containsSub logLine "address already in use"
      || containsSub logLine "Unable to listen on any of the requested ports") = true)
    (hexc : pod.excluded = false) :
    (processKubectlLog logLine pod othersLeft).killedChild = true ∧
    (processKubectlLog logLine pod othersLeft).removedFromSet = true ∧
    (processKubectlLog logLine pod othersLeft).healthCheckTriggered = false ∧
    (processKubectlLog logLine pod othersLeft).pod.excluded = true ∧
    (processKubectlLog logLine pod othersLeft).exitCode =
      (if othersLeft then none else some 0) ∧
    processKubectlLog logLine (processKubectlLog logLine pod othersLeft).pod othersLeft =
      noEffect (processKubectlLog logLine pod othersLeft).pod := by
  have hor : containsSub logLine "address already in use" = true ∨
      containsSub logLine "Unable to listen on any of the requested ports" = true := by
    rcases Bool.or_eq_true_iff.mp hclass with h | h
    · exact Or.inl h
    · exact Or.inr h
  rcases hor with h | h <;>
    simp [processKubectlLog, h1, h2, h3, h, hexc, noEffect]

/-- Claim C7 witness: the theorem at the concrete port-already-bound
line with the last active session (`othersLeft = false`), exiting
with the clean code 0. -/
theorem c7_port_in_use_witness :
    (processKubectlLog portInUseLine freshLogPod false).killedChild = true ∧
    (processKubectlLog portInUseLine freshLogPod false).removedFromSet = true ∧
    (processKubectlLog portInUseLine freshLogPod false).healthCheckTriggered = false ∧
    (processKubectlLog portInUseLine freshLogPod false).pod.excluded = true ∧
    (processKubectlLog portInUseLine freshLogPod false).exitCode = some 0 ∧
    processKubectlLog portInUseLine
        (processKubectlLog portInUseLine freshLogPod false).pod false =
      noEffect (processKubectlLog portInUseLine freshLogPod false).pod :=
  c7_port_in_use portInUseLine freshLogPod false (by decide) (by decide) (by decide)
    (by decide) (by decide)

/-- Claim C8: for a session still initializing, the first log line
classified as forwarding-established sets `initialized` (the
Forwarding-Initializing to Forwarding-Active transition) with no
other effect, and any further established line leaves the session
state unchanged with no effect: the transition happens exactly
once. -/
theorem c8_established_idempotent (l1 l2 : String) (pod : LogPod) (b1 b2 : Bool)
    (h1 : containsSub l1 "Forwarding from" = true)
    (h2 : containsSub l2 "Forwarding from" = true)
    (hinit : pod.initialized = false) :
    processKubectlLog l1 pod b1 = noEffect { pod with initialized := true } ∧
    processKubectlLog l2 { pod with initialized := true } b2 =
      noEffect { pod with initialized := true } := by
  constructor
  · simp [processKubectlLog, h1, hinit, noEffect]
  · simp [processKubectlLog, h2, noEffect]

/-- Claim C8 witness: the theorem at the concrete established line
and a freshly spawned session. -/
theorem c8_established_idempotent_witness :
    processKubectlLog establishedLine freshLogPod true =
      noEffect { freshLogPod with initialized := true } ∧
    processKubectlLog establishedLine { freshLogPod with initialized := true } false =
      noEffect { freshLogPod with initialized := true } :=
  c8_established_idempotent establishedLine establishedLine freshLogPod true false
    (by decide) (by decide) (by decide)

/-- Claim C9: `getPodId` on a table containing the line
`myapp-7f8c9 1/1 Running 0 3m` with prefix `myapp` returns
`myapp-7f8c9`; on a table whose only matching line is
`myapp-7f8c9 0/1 Pending 0 10s`, non-silent mode throws the
wrong-phase error carrying `Pending` (whose message mentions
`Pending`), and silent mode returns not-found. -/
theorem c9_matchInstance_examples :
    getPodId runningTable "myapp" false = .found "myapp-7f8c9" ∧
    getPodId runningTable "myapp" true = .found "myapp-7f8c9" ∧
    getPodId pendingTable "myapp" false = .phaseErr "Pending" ∧
    containsSub (phaseMessage "myapp" "Pending") "Pending" = true ∧
    getPodId pendingTable "myapp" true = .silentFail := by decide

/-- Claim C10: because the line filter is a plain prefix test and
the instance token pattern is the prefix followed by any run of
hyphens, digits and lowercase letters, prefix `web` matches the
longer-named workload `webapp-1a2b`: `getPodId` returns
`webapp-1a2b` on a table whose only Running line belongs to it. -/
theorem c10_prefix_overmatch :
    getPodId webTable "web" false = .found "webapp-1a2b" ∧
    getPodId webTable "web" true = .found "webapp-1a2b" := by decide
